import Mathlib

/-!
Shallow embedding of the rust-grpc echo service (src/server.rs and
src/main.rs) together with proofs of the specified properties.

The repository has two binaries:
- a gRPC echo server whose single handler returns the request message
  unchanged, wrapped in a response;
- a CLI client that connects to a host/port, sends one message and prints
  the echoed payload.

Network transport (tonic), the async runtime and the process boundary are
modelled by explicit parameters: connect and call results are passed in as
values of an Except type, and the process outcome is an exit code together
with the list of lines written to standard output.
-/

namespace RustGrpc

/-- Protobuf message api.EchoRequest: a single string field message. -/
structure EchoRequest where
  message : String
deriving DecidableEq, Repr

/-- Protobuf message api.EchoResponse: a single string field message. -/
structure EchoResponse where
  message : String
deriving DecidableEq, Repr

/-- Error value of tonic::Status, as returned by a gRPC handler. The echo
handler never constructs one; the payload is kept abstract as a code and a
message string. -/
structure Status where
  code : Nat
  msg : String
deriving DecidableEq, Repr

/-- Error value of a transport failure (connection refused, timeout,
address parse failure, bind failure). Only its presence matters. -/
structure TransportError where
  msg : String
deriving DecidableEq, Repr

/-- The service struct from src/server.rs: pub struct Echo \x7b\x7d. It has
no fields, hence the server carries no mutable state across calls. -/
structure Echo
deriving DecidableEq, Repr

/-- Rust format with a lone display placeholder applied to a String value:
the Display implementation of String yields the string itself. -/
def fmtDisplay (s : String) : String := s

/-- The handler Echo::echo from src/server.rs lines 17-25: builds an
EchoResponse whose message is the display formatting of the request
message and returns the Ok branch. The diagnostic println of the request
is observability only and carries no data into the result. The self
receiver is the field-less Echo struct. -/
def Echo.echo (_self : Echo) (request : EchoRequest) : Except Status EchoResponse :=
  Except.ok { message := fmtDisplay request.message }

/-- One server step: handle a request. The handler takes the receiver by
shared reference, so the server state after the call is the state before
it. -/
def serverStep (e : Echo) (r : EchoRequest) : Except Status EchoResponse × Echo :=
  (Echo.echo e r, e)

/-- A run of the server over a sequence of incoming requests, threading the
server state through the calls and collecting the responses in order. -/
def serverRun (e : Echo) : List EchoRequest → List (Except Status EchoResponse)
  | [] => []
  | r :: rs =>
    let step := serverStep e r
    step.1 :: serverRun step.2 rs

/-- Unicode character data consulted by Rust Debug formatting of strings:
whether a character is printable and whether it is grapheme extended.
These are standard library tables outside this repository, and their
content varies with the Unicode version of the toolchain, so they are
kept abstract; the two ascii fields pin down the fragment on which every
toolchain agrees: below code point 128 the printable characters are
exactly the range 32 to 126 and no character is grapheme extended. -/
structure UnicodeTables where
  isPrintable : Char → Bool
  isGraphemeExtended : Char → Bool
  ascii_printable : ∀ c : Char, c.toNat < 128 →
    isPrintable c = decide (32 ≤ c.toNat ∧ c.toNat ≤ 126)
  ascii_not_grapheme_extended : ∀ c : Char, c.toNat < 128 →
    isGraphemeExtended c = false

/-- Concrete Unicode tables agreeing with the abstract ones on the ascii
fragment; outside ascii they treat every character as printable and not
grapheme extended, which the theorems never rely on. -/
def asciiTables : UnicodeTables where
  isPrintable := fun c => decide (32 ≤ c.toNat ∧ c.toNat ≤ 126)
  isGraphemeExtended := fun _ => false
  ascii_printable := fun _ _ => rfl
  ascii_not_grapheme_extended := fun _ _ => rfl

/-- Unicode escape of one character, backslash u and the code point in
lowercase hexadecimal between braces. -/
def uEscape (c : Char) : String :=
  "\\u\x7b" ++ String.mk (Nat.toDigits 16 c.toNat) ++ "\x7d"

/-- Escape of one character under Rust Debug formatting of strings,
char escape_debug_ext with double quotes escaped and single quotes not,
in the order of its match arms: NUL, tab, carriage return, newline,
backslash and quote get two-character escapes; then a grapheme-extended
character gets a \u escape, a printable character stands for itself, and
every remaining character gets a \u escape. -/
def escapeDebugChar (t : UnicodeTables) (c : Char) : String :=
  if c = '\x00' then "\\0"
  else if c = '\t' then "\\t"
  else if c = '\r' then "\\r"
  else if c = '\n' then "\\n"
  else if c = '\\' then "\\\\"
  else if c = '"' then "\\\""
  else if t.isGraphemeExtended c then uEscape c
  else if t.isPrintable c then String.singleton c
  else uEscape c

/-- Rust Debug formatting of a String, as produced by a debug placeholder
in println: the escaped characters surrounded by double quotes, relative
to the Unicode tables of the toolchain. -/
def rustDebug (t : UnicodeTables) (s : String) : String :=
  "\"" ++ String.join (s.toList.map (escapeDebugChar t)) ++ "\""

/-- Parsed client command line, struct ClientCli of src/main.rs: host flag,
port flag and the required positional message. The port is a u16 value,
kept as a Nat that the argument parser bounds below 65536. -/
structure ClientCli where
  server : String
  port : Nat
  message : String
deriving DecidableEq, Repr

/-- Parsed server command line, struct ServerCli of src/server.rs: host
flag and port flag only. -/
structure ServerCli where
  server : String
  port : Nat
deriving DecidableEq, Repr

/-- Value of the digit characters of a numeral read in base ten. -/
def digitsToNat (l : List Char) : Nat :=
  l.foldl (fun acc c => acc * 10 + (c.toNat - 48)) 0

/-- Parse of a port argument as a 16-bit unsigned integer, the from_str
implementation of u16 that clap uses for a u16 field: an optional leading
plus sign, then one or more decimal digits; any other character, an empty
numeral, or a value of 65536 or more is rejected. -/
def parseU16 (s : String) : Option Nat :=
  let t := match s.data with
    | '+' :: rest => rest
    | cs => cs
  if t = [] ∨ ¬ t.all Char.isDigit then none
  else if digitsToNat t < 65536 then some (digitsToNat t)
  else none

/-- Test of whether a command-line token is flag shaped: a dash followed
by at least one character. A lone dash counts as an ordinary value. -/
def looksLikeFlag (a : String) : Bool :=
  match a.data with
  | '-' :: _ :: _ => true
  | _ => false

instance {ε α : Type} [DecidableEq ε] [DecidableEq α] : DecidableEq (Except ε α) := fun x y =>
  match x, y with
  | Except.error a, Except.error b =>
    if h : a = b then isTrue (by rw [h]) else isFalse (by simp [h])
  | Except.ok a, Except.ok b =>
    if h : a = b then isTrue (by rw [h]) else isFalse (by simp [h])
  | Except.error _, Except.ok _ => isFalse (by simp)
  | Except.ok _, Except.error _ => isFalse (by simp)

/-- Errors of command-line parsing; which constructor arises only matters
as failure versus success. -/
inductive CliError where
  | missingValue : String → CliError
  | invalidPort : String → CliError
  | unknownFlag : String → CliError
  | unexpectedArg : String → CliError
  | missingMessage : CliError
deriving DecidableEq, Repr

/-- Modelled from the clap derive attributes on ClientCli in src/main.rs:
long and short forms of the server and port flags each taking the next
token as value, defaults 127.0.0.1 and 50052 when a flag is absent, the
port value parsed as u16, one required positional message, unknown flags
and surplus positionals rejected. Restricted to single occurrence of each
flag with a separate value token. -/
def parseClientArgsAux : List String → Option String → Option Nat → Option String →
    Except CliError ClientCli
  | [], srv, prt, msg =>
    match msg with
    | some m => Except.ok { server := srv.getD "127.0.0.1", port := prt.getD 50052, message := m }
    | none => Except.error CliError.missingMessage
  | a :: rest, srv, prt, msg =>
    if a = "--server" ∨ a = "-s" then
      match rest with
      | v :: rest2 => parseClientArgsAux rest2 (some v) prt msg
      | [] => Except.error (CliError.missingValue a)
    else if a = "--port" ∨ a = "-p" then
      match rest with
      | v :: rest2 =>
        match parseU16 v with
        | some n => parseClientArgsAux rest2 srv (some n) msg
        | none => Except.error (CliError.invalidPort v)
      | [] => Except.error (CliError.missingValue a)
    else if looksLikeFlag a then Except.error (CliError.unknownFlag a)
    else
      match msg with
      | none => parseClientArgsAux rest srv prt (some a)
      | some _ => Except.error (CliError.unexpectedArg a)

/-- Entry point of client argument parsing with no flag seen yet. -/
def parseClientArgs (args : List String) : Except CliError ClientCli :=
  parseClientArgsAux args none none none

/-- Modelled from the clap derive attributes on ServerCli in src/server.rs:
same server and port flags and defaults as the client, no positional
argument at all. -/
def parseServerArgsAux : List String → Option String → Option Nat →
    Except CliError ServerCli
  | [], srv, prt => Except.ok { server := srv.getD "127.0.0.1", port := prt.getD 50052 }
  | a :: rest, srv, prt =>
    if a = "--server" ∨ a = "-s" then
      match rest with
      | v :: rest2 => parseServerArgsAux rest2 (some v) prt
      | [] => Except.error (CliError.missingValue a)
    else if a = "--port" ∨ a = "-p" then
      match rest with
      | v :: rest2 =>
        match parseU16 v with
        | some n => parseServerArgsAux rest2 srv (some n)
        | none => Except.error (CliError.invalidPort v)
      | [] => Except.error (CliError.missingValue a)
    else Except.error (CliError.unexpectedArg a)

/-- Entry point of server argument parsing with no flag seen yet. -/
def parseServerArgs (args : List String) : Except CliError ServerCli :=
  parseServerArgsAux args none none

/-- Connection target string the client builds, format http with host and
port from the parsed command line (src/main.rs line 26). -/
def clientTarget (cli : ClientCli) : String :=
  "http://" ++ cli.server ++ ":" ++ toString cli.port

/-- The request the client constructs (src/main.rs lines 28-30): the
message field is the command-line message, unchanged. -/
def clientRequest (cli : ClientCli) : EchoRequest :=
  { message := cli.message }

/-- Observable outcome of a client process run: the exit code and the lines
written to standard output. -/
structure ClientOutcome where
  exitCode : Nat
  stdout : List String
deriving DecidableEq, Repr

/-- The client main of src/main.rs, with the transport and the Unicode
tables of the toolchain passed in: connect at the target, propagate a
connect failure with a nonzero exit and no output, otherwise issue the
call with the constructed request, propagate a call failure the same way,
and on success print the line RESPONSE= followed by the Debug formatting
of the response message and exit with zero. -/
def clientMain (t : UnicodeTables) (cli : ClientCli)
    (connect : String → Except TransportError Unit)
    (call : EchoRequest → Except TransportError EchoResponse) : ClientOutcome :=
  match connect (clientTarget cli) with
  | Except.error _ => { exitCode := 1, stdout := [] }
  | Except.ok _ =>
    match call (clientRequest cli) with
    | Except.error _ => { exitCode := 1, stdout := [] }
    | Except.ok response =>
      { exitCode := 0, stdout := ["RESPONSE=" ++ rustDebug t response.message] }

/-- A socket address, result of parsing the host:port string. Its internal
shape is irrelevant to the claims. -/
structure SocketAddr where
  host : String
  port : Nat
deriving DecidableEq, Repr

/-- The address string the server parses, format host:port from the parsed
command line (src/server.rs line 42). -/
def serverAddrString (cli : ServerCli) : String :=
  cli.server ++ ":" ++ toString cli.port

/-- The server main of src/server.rs lines 40-53, with address parsing and
the serve loop passed in: parse the address string, propagate a parse
failure with a nonzero exit, otherwise serve and propagate a serve or bind
failure with a nonzero exit; exit zero only when serve returns cleanly. -/
def serverMain (cli : ServerCli)
    (parseAddr : String → Except TransportError SocketAddr)
    (serve : SocketAddr → Except TransportError Unit) : Nat :=
  match parseAddr (serverAddrString cli) with
  | Except.error _ => 1
  | Except.ok addr =>
    match serve addr with
    | Except.error _ => 1
    | Except.ok _ => 0

/-- C1: for every string m, including the empty string and strings with
multi-byte characters, the echo handler applied to a request with payload
m returns a response whose payload equals m. -/
theorem echo_identity (e : Echo) (m : String) :
    Echo.echo e { message := m } = Except.ok { message := m } := rfl

/-- C3: the byte length of the response payload produced by the echo
handler equals the byte length of the request payload. -/
theorem echo_preserves_byte_length (e : Echo) (req : EchoRequest) (resp : EchoResponse)
    (h : Echo.echo e req = Except.ok resp) :
    resp.message.utf8ByteSize = req.message.utf8ByteSize := by
  cases h' : Echo.echo e req with
  | error s => rw [h'] at h; cases h
  | ok r =>
    rw [h'] at h
    cases h
    simp [Echo.echo, fmtDisplay] at h'
    rw [← h']

/-- C3 witness: a concrete multi-byte request whose echoed response has the
same byte length. -/
theorem echo_preserves_byte_length_witness :
    ("héllo" : String).utf8ByteSize = ("héllo" : String).utf8ByteSize :=
  echo_preserves_byte_length ⟨⟩ { message := "héllo" } { message := "héllo" } rfl

/-- C4: the echo handler returns the Ok branch for every request; the
service logic itself never produces an error Status. -/
theorem echo_always_ok (e : Echo) (req : EchoRequest) :
    (Echo.echo e req).isOk = true := rfl

/-- C2 counterexample: with message hello against a working echo transport,
the single stdout line is RESPONSE= followed by the quoted Debug rendering
of the payload, which differs from RESPONSE= followed by the payload
itself; so the claim that the line is the literal prefix followed by the
echoed payload fails. On this all-ascii input the abstract Unicode tables
are fully pinned down, so the concrete tables instantiate them exactly. -/
theorem client_output_quotes_payload :
    (clientMain asciiTables { server := "127.0.0.1", port := 50052, message := "hello" }
        (fun _ => Except.ok ()) (fun r => Except.ok { message := r.message })).stdout
      = ["RESPONSE=\"hello\""]
    ∧ ("RESPONSE=\"hello\"" : String) ≠ "RESPONSE=" ++ "hello" := by
  constructor
  · rfl
  · decide

/-- C2 amended: on a successful call the client writes exactly one line,
RESPONSE= followed by the Rust Debug rendering of the echoed payload
under the Unicode tables of the toolchain (quote wrapped; NUL, tab,
carriage return, newline, backslash and quote as two-character escapes;
grapheme-extended and non-printable characters as \u escapes; printable
characters verbatim), and exits with status 0; for message hello this
line is RESPONSE="hello". -/
theorem client_success_output (t : UnicodeTables) (cli : ClientCli)
    (connect : String → Except TransportError Unit)
    (call : EchoRequest → Except TransportError EchoResponse)
    (resp : EchoResponse)
    (hc : connect (clientTarget cli) = Except.ok ())
    (hcall : call (clientRequest cli) = Except.ok resp) :
    clientMain t cli connect call
      = { exitCode := 0, stdout := ["RESPONSE=" ++ rustDebug t resp.message] } := by
  simp [clientMain, hc, hcall]

/-- C2 amended witness: message hello over a working echo transport yields
exit code 0 and the single line RESPONSE="hello". -/
theorem client_success_output_witness :
    clientMain asciiTables { server := "127.0.0.1", port := 50052, message := "hello" }
        (fun _ => Except.ok ()) (fun r => Except.ok { message := r.message })
      = { exitCode := 0, stdout := ["RESPONSE=\"hello\""] } := by
  have h := client_success_output asciiTables
    { server := "127.0.0.1", port := 50052, message := "hello" }
    (fun _ => Except.ok ()) (fun r => Except.ok { message := r.message })
    { message := "hello" } rfl rfl
  rw [h]
  rfl

/-- C5: when the connection attempt or the call fails, the client exits
with a nonzero status and writes no line beginning with RESPONSE= to
standard output, whatever the Unicode tables of the toolchain. -/
theorem client_failure_no_output (t : UnicodeTables) (cli : ClientCli)
    (connect : String → Except TransportError Unit)
    (call : EchoRequest → Except TransportError EchoResponse)
    (h : (connect (clientTarget cli)).isOk = false ∨
         (call (clientRequest cli)).isOk = false) :
    (clientMain t cli connect call).exitCode ≠ 0 ∧
    ∀ line ∈ (clientMain t cli connect call).stdout, ¬ line.startsWith "RESPONSE=" := by
  cases hc : connect (clientTarget cli) with
  | error e => simp [clientMain, hc]
  | ok u =>
    cases u
    cases hcall : call (clientRequest cli) with
    | error e => simp [clientMain, hc, hcall]
    | ok r =>
      rw [hc, hcall] at h
      simp [Except.isOk, Except.toBool] at h

/-- C5 witness: a refused connection yields a nonzero exit and no
RESPONSE= line. -/
theorem client_failure_no_output_witness :
    (clientMain asciiTables { server := "127.0.0.1", port := 50052, message := "hello" }
        (fun _ => Except.error { msg := "connection refused" })
        (fun _ => Except.error { msg := "unreachable" })).exitCode ≠ 0 ∧
    ∀ line ∈ (clientMain asciiTables { server := "127.0.0.1", port := 50052, message := "hello" }
        (fun _ => Except.error { msg := "connection refused" })
        (fun _ => Except.error { msg := "unreachable" })).stdout,
      ¬ line.startsWith "RESPONSE=" :=
  client_failure_no_output asciiTables _ _ _ (Or.inl rfl)

/-- C7: the echo handler is deterministic (equal request payloads yield
equal results, whatever the server value) and stateless (in a run over any
history of earlier requests, the response to the last request is exactly
the handler applied to it, independent of the history). -/
theorem echo_deterministic_stateless :
    (∀ (e1 e2 : Echo) (r1 r2 : EchoRequest), r1.message = r2.message →
        Echo.echo e1 r1 = Echo.echo e2 r2)
    ∧ (∀ (e : Echo) (hist : List EchoRequest) (req : EchoRequest),
        serverRun e (hist ++ [req]) = serverRun e hist ++ [Echo.echo e req]) := by
  constructor
  · intro e1 e2 r1 r2 hm
    simp [Echo.echo, fmtDisplay, hm]
  · intro e hist req
    induction hist with
    | nil => rfl
    | cons r rs ih => simp [serverRun, serverStep, ih]

/-- C7 witness: with equal payloads the results agree, and after a one-call
history the response to a request is the plain handler result. -/
theorem echo_deterministic_stateless_witness :
    Echo.echo ⟨⟩ { message := "a" } = Echo.echo ⟨⟩ { message := "a" } ∧
    serverRun ⟨⟩ ([{ message := "x" }] ++ [{ message := "a" }])
      = serverRun ⟨⟩ [{ message := "x" }] ++ [Echo.echo ⟨⟩ { message := "a" }] :=
  ⟨echo_deterministic_stateless.1 ⟨⟩ ⟨⟩ { message := "a" } { message := "a" } rfl,
   echo_deterministic_stateless.2 ⟨⟩ [{ message := "x" }] { message := "a" }⟩

/-- C9: the request the client sends carries the command-line message
verbatim; no transformation happens between parsing and construction of
the EchoRequest. -/
theorem client_sends_message_verbatim (cli : ClientCli) :
    (clientRequest cli).message = cli.message := rfl

/-- C6: both binaries accept the server flag in long and short form with
default 127.0.0.1 and the port flag in long and short form with default
50052; the client additionally requires the positional message, which has
no default. -/
theorem cli_flags_and_defaults :
    parseServerArgs [] = Except.ok { server := "127.0.0.1", port := 50052 }
    ∧ parseServerArgs ["--server", "10.0.0.1", "--port", "9000"]
        = Except.ok { server := "10.0.0.1", port := 9000 }
    ∧ parseServerArgs ["-s", "10.0.0.1", "-p", "9000"]
        = Except.ok { server := "10.0.0.1", port := 9000 }
    ∧ parseClientArgs ["hi"]
        = Except.ok { server := "127.0.0.1", port := 50052, message := "hi" }
    ∧ parseClientArgs ["--server", "10.0.0.1", "--port", "9000", "hi"]
        = Except.ok { server := "10.0.0.1", port := 9000, message := "hi" }
    ∧ parseClientArgs ["-s", "10.0.0.1", "-p", "9000", "hi"]
        = Except.ok { server := "10.0.0.1", port := 9000, message := "hi" }
    ∧ (parseClientArgs []).isOk = false := by
  refine ⟨?_, ?_, ?_, ?_, ?_, ?_, ?_⟩
  · simp [parseServerArgs, parseServerArgsAux]
  · simp [parseServerArgs, parseServerArgsAux]; decide
  · simp [parseServerArgs, parseServerArgsAux]; decide
  · simp [parseClientArgs, parseClientArgsAux]; decide
  · simp [parseClientArgs, parseClientArgsAux]; decide
  · simp [parseClientArgs, parseClientArgsAux]; decide
  · simp [parseClientArgs, parseClientArgsAux, Except.isOk, Except.toBool]

/-- C8: when the address string does not parse, or serving on the parsed
address fails (bind failure included), the server process exits with a
nonzero status. -/
theorem server_failure_nonzero (cli : ServerCli)
    (parseAddr : String → Except TransportError SocketAddr)
    (serve : SocketAddr → Except TransportError Unit)
    (h : (parseAddr (serverAddrString cli)).isOk = false ∨
         ∃ addr, parseAddr (serverAddrString cli) = Except.ok addr ∧ (serve addr).isOk = false) :
    serverMain cli parseAddr serve ≠ 0 := by
  cases hp : parseAddr (serverAddrString cli) with
  | error e => simp [serverMain, hp]
  | ok addr =>
    rcases h with h1 | ⟨a, ha, hs⟩
    · rw [hp] at h1
      simp [Except.isOk, Except.toBool] at h1
    · rw [hp] at ha
      injection ha with ha'
      subst ha'
      cases hs' : serve addr with
      | error e => simp [serverMain, hp, hs']
      | ok u =>
        rw [hs'] at hs
        simp [Except.isOk, Except.toBool] at hs

/-- C8 witness: an address that fails to parse makes the server exit with
a nonzero status. -/
theorem server_failure_nonzero_witness :
    serverMain { server := "not an address", port := 50052 }
      (fun _ => Except.error { msg := "invalid socket address" })
      (fun _ => Except.ok ()) ≠ 0 :=
  server_failure_nonzero _ _ _ (Or.inl rfl)

/-- C10: a port value only parses as a 16-bit unsigned integer below
65536; the out-of-range numeral 65536 and the non-numeric string abc are
rejected, and with any rejected port value both argument parsers fail, so
neither binary proceeds with it. -/
theorem port_parsed_as_u16 :
    (∀ (s : String) (n : Nat), parseU16 s = some n → n < 65536)
    ∧ parseU16 "65536" = none
    ∧ parseU16 "abc" = none
    ∧ (∀ (s m : String), parseU16 s = none →
        (parseClientArgs ["--port", s, m]).isOk = false ∧
        (parseServerArgs ["--port", s]).isOk = false) := by
  refine ⟨?_, by decide, by decide, ?_⟩
  · intro s n h
    simp only [parseU16] at h
    split_ifs at h
    all_goals simp_all
  · intro s m h
    constructor
    · simp [parseClientArgs, parseClientArgsAux, h, Except.isOk, Except.toBool]
    · simp [parseServerArgs, parseServerArgsAux, h, Except.isOk, Except.toBool]

/-- C10 witness: the default port value parses below 65536 and a rejected
port value makes client argument parsing fail. -/
theorem port_parsed_as_u16_witness :
    (50052 < 65536) ∧ (parseClientArgs ["--port", "99999", "m"]).isOk = false :=
  ⟨port_parsed_as_u16.1 "50052" 50052 (by decide),
   (port_parsed_as_u16.2.2.2 "99999" "m" (by decide)).1⟩

end RustGrpc
